import Mathlib

/-!
Shallow embedding of the backend-plugin runtime manager
(`pkg/plugins/manager/managerv2.go`) of the Slinjez/grafana repository.

Conventions of the embedding:
* Go errors become the inductive `GoError`; `errors.Is` becomes `errorsIs`,
  which unwraps `wrapped` causes; `errutil.Wrap(msg, err)` becomes
  `GoError.wrapped msg err`.
* The Go map `map[string]*plugins.PluginV2` is modelled as an association
  list with unique keys maintained by `mapInsert` / `mapDelete`.
* Pointer mutation of a plugin entity (`Decommission`) is modelled by
  replacing the map entry with an updated copy.
* Injected collaborators (the request validator, the plugin invocation, the
  on-disk installer, `Stop`) are passed as explicit function parameters, as
  the spec's design notes direct for reimplementation.
* Filesystem paths are modelled post-`filepath.Clean`: an absolute flag plus
  the list of path components (no empty or "." components; ".." components
  only at the front of a relative path, which is the shape `Clean`
  guarantees).  `goRel` models `filepath.Rel` on that shape (Unix separator,
  empty volume names).
-/

namespace Grafana

/-- Go error values used by the manager.  The named constructors are the
sentinel errors of `pkg/plugins` and `pkg/plugins/backendplugin`;
`wrapped` is a `%w`-wrapping error (`errutil.Wrap`); `other` is any other
leaf error (`errors.New` / `fmt.Errorf` without `%w`). -/
inductive GoError where
  | methodNotImplemented
  | pluginUnavailable
  | healthCheckFailed
  | pluginNotRegistered
  | pluginNotInstalled
  | uninstallCorePlugin
  | installCorePlugin
  | uninstallOutsideOfPluginDir
  | ctxCanceled
  | ctxDeadlineExceeded
  | wrapped (msg : String) (cause : GoError)
  | other (msg : String)
  deriving DecidableEq, Repr

/-- Model of Go `errors.Is`: identity match, else unwrap the `%w` chain. -/
def errorsIs : GoError → GoError → Bool
  | e, target =>
    if e = target then true
    else
      match e with
      | .wrapped _ cause => errorsIs cause target
      | _ => false

/-- Cleaned filesystem path: absolute flag plus path components, the shape
`filepath.Clean` produces (Unix separators, no volume names). -/
structure GoPath where
  abs : Bool
  comps : List String
  deriving DecidableEq, Repr

/-- Drop the longest common prefix of two component lists, returning the two
remainders (the positioning step of `filepath.Rel`). -/
def dropCommon : List String → List String → List String × List String
  | a :: as, b :: bs => if a = b then dropCommon as bs else (a :: as, b :: bs)
  | as, bs => (as, bs)

/-- Model of Go `filepath.Rel(basepath, targpath)` on cleaned paths: `none`
is the error return (absolute/relative mismatch, or a ".." component left in
the base at the divergence point); `some comps` is the component list of the
resulting relative path (`["."]` when the paths are equal). -/
def goRel (base targ : GoPath) : Option (List String) :=
  if base = targ then some ["."]
  else if base.abs ≠ targ.abs then none
  else
    match dropCommon base.comps targ.comps with
    | (b, t) =>
      match b with
      | [] => some t
      | b0 :: _ =>
        if b0 = ".." then none
        else some (List.replicate b.length ".." ++ t)

/-- Render a relative component list the way `filepath.Rel` returns it as a
string, as a character list (components joined by the Unix separator). -/
def renderRel : List String → List Char
  | [] => []
  | [c] => c.data
  | c :: rest => c.data ++ '/' :: renderRel rest

/-- Model of `strings.HasPrefix(path, ".."+string(filepath.Separator))` on a
rendered path. -/
def startsWithDotDotSlash : List Char → Bool
  | '.' :: '.' :: '/' :: _ => true
  | _ => false

/-- Condition under which `Uninstall` rejects the plugin directory
(managerv2.go lines 638-641): `filepath.Rel` errors, or its result starts
with `"../"`. -/
def unsafeUninstallPath (pluginsPath pluginDir : GoPath) : Bool :=
  match goRel pluginsPath pluginDir with
  | none => true
  | some comps => startsWithDotDotSlash (renderRel comps)

/-- Modelled from the spec: the spec's path-containment requirement for
`Uninstall` — the plugin directory "must resolve to a relative path under
the configured external-plugins root with no `..` traversal component".
Unsafe means: `filepath.Rel` fails, or the relative path contains a `..`
component. -/
def specUnsafeUninstallPath (pluginsPath pluginDir : GoPath) : Bool :=
  match goRel pluginsPath pluginDir with
  | none => true
  | some comps => comps.contains ".."

/-- Provenance class of a plugin (spec section 3). -/
inductive PluginClass where
  | core
  | bundled
  | external
  deriving DecidableEq, Repr

/-- Model of `plugins.PluginV2` restricted to the fields the manager logic
under verification reads: identity, provenance, load directory, and the
one-way decommission flag.  Remaining manifest metadata is elided. -/
structure PluginV2 where
  ID : String
  Class : PluginClass
  PluginDir : GoPath
  decommissioned : Bool
  deriving DecidableEq, Repr

/-- Modelled from the spec: `PluginV2.IsExternalPlugin` (the `plugins`
package is not under src/) — provenance class is `external`. -/
def PluginV2.IsExternalPlugin (p : PluginV2) : Bool :=
  p.Class = PluginClass.external

/-- Modelled from the spec: `PluginV2.IsDecommissioned` reads the one-way
decommission flag. -/
def PluginV2.IsDecommissioned (p : PluginV2) : Bool :=
  p.decommissioned

/-- Registry map content: association list with unique keys standing for the
Go map `map[string]*plugins.PluginV2`. -/
abbrev PluginMap := List (String × PluginV2)

/-- Map read `m.plugins[pluginID]`. -/
def mapLookup : PluginMap → String → Option PluginV2
  | [], _ => none
  | (k', v) :: rest, k => if k' = k then some v else mapLookup rest k

/-- Map write `m.plugins[pluginID] = p` (replace if present, else append). -/
def mapInsert : PluginMap → String → PluginV2 → PluginMap
  | [], k, v => [(k, v)]
  | (k', v') :: rest, k, v =>
    if k' = k then (k, v) :: rest else (k', v') :: mapInsert rest k v

/-- Map delete `delete(m.plugins, pluginID)`. -/
def mapDelete : PluginMap → String → PluginMap
  | [], _ => []
  | (k', v) :: rest, k =>
    if k' = k then mapDelete rest k else (k', v) :: mapDelete rest k

/-- Manager state relevant to the claims: the registry map guarded by
`pluginsMu`.  The lock itself is not modelled (operations are atomic in this
sequential embedding). -/
structure ManagerState where
  plugins : PluginMap
  deriving DecidableEq, Repr

/-- Model of `PluginManagerV2.Plugin` (managerv2.go lines 228-238): read the
map, then return nil when absent or when the retrieved entity is
decommissioned — the decommission check runs at lookup time on the copied
reference. -/
def Plugin (m : ManagerState) (pluginID : String) : Option PluginV2 :=
  match mapLookup m.plugins pluginID with
  | none => none
  | some p => if p.IsDecommissioned then none else some p

/-- Model of `PluginManagerV2.IsRegistered` (managerv2.go lines 565-572). -/
def IsRegistered (m : ManagerState) (pluginID : String) : Bool :=
  match Plugin m pluginID with
  | none => false
  | some p => !p.IsDecommissioned

/-- Model of `PluginManagerV2.Register` (managerv2.go lines 506-519): fail if
the id is already a key of the raw map (decommissioned or not), else insert.
Returns the updated state and the error slot. -/
def Register (m : ManagerState) (p : PluginV2) : ManagerState × Option GoError :=
  if (mapLookup m.plugins p.ID).isSome then
    (m, some (.other ("plugin " ++ p.ID ++ " already registered")))
  else
    ({ m with plugins := mapInsert m.plugins p.ID p }, none)

/-- Model of `PluginManagerV2.UnregisterAndStop` (managerv2.go lines
536-559): look up through `Plugin`, decommission the entity (pointer
mutation, modelled as a map-entry update), stop it (outcome supplied by
`stopErr`), and on success delete the map entry.  `Decommission` itself is
modelled from the spec (one-way flag set, always succeeds) since the
`plugins` package is not under src/. -/
def UnregisterAndStop (m : ManagerState) (pluginID : String)
    (stopErr : PluginV2 → Option GoError) : ManagerState × Option GoError :=
  match Plugin m pluginID with
  | none => (m, some (.other ("plugin " ++ pluginID ++ " is not registered")))
  | some p =>
    let m' : ManagerState :=
      { m with plugins := mapInsert m.plugins pluginID { p with decommissioned := true } }
    match stopErr p with
    | some e => (m', some e)
    | none => ({ m' with plugins := mapDelete m'.plugins pluginID }, none)

/-- Model of the private `PluginManagerV2.unregister` (managerv2.go lines
658-665): unconditionally delete the map entry. -/
def unregister (m : ManagerState) (p : PluginV2) : ManagerState :=
  { m with plugins := mapDelete m.plugins p.ID }

/-- Model of `PluginManagerV2.Uninstall` (managerv2.go lines 627-656).
Returns the final state, the error slot, and the list of directories handed
to `pluginInstaller.Uninstall` for on-disk deletion.  `installerErr` supplies
the installer's outcome for a directory. -/
def Uninstall (m : ManagerState) (pluginID : String) (pluginsPath : GoPath)
    (stopErr : PluginV2 → Option GoError)
    (installerErr : GoPath → Option GoError) :
    ManagerState × Option GoError × List GoPath :=
  match Plugin m pluginID with
  | none => (m, some .pluginNotInstalled, [])
  | some plugin =>
    if !plugin.IsExternalPlugin then
      (m, some .uninstallCorePlugin, [])
    else if unsafeUninstallPath pluginsPath plugin.PluginDir then
      (m, some .uninstallOutsideOfPluginDir, [])
    else
      let step1 : ManagerState × Option GoError :=
        if IsRegistered m pluginID then UnregisterAndStop m pluginID stopErr
        else (m, none)
      match step1 with
      | (m', some e) => (m', some e, [])
      | (m', none) =>
        let m'' := unregister m' plugin
        (m'', installerErr plugin.PluginDir, [plugin.PluginDir])

/-- Data-source settings carried in a plugin context (only the URL is read
by the manager). -/
structure DataSourceInstanceSettings where
  URL : String
  deriving DecidableEq, Repr

/-- Model of `backend.PluginContext` restricted to the fields the manager
reads. -/
structure PluginContext where
  PluginID : String
  DataSourceInstanceSettings : Option DataSourceInstanceSettings
  deriving DecidableEq, Repr

/-- Extraction of the data-source URL used by `CallResource` and
`CheckHealth`: empty string when `DataSourceInstanceSettings` is nil. -/
def dsURLOf (pc : PluginContext) : String :=
  match pc.DataSourceInstanceSettings with
  | some dis => dis.URL
  | none => ""

/-- Model of `backend.QueryDataRequest` restricted to the field the manager
reads. -/
structure QueryDataRequest where
  PluginContext : PluginContext
  deriving DecidableEq, Repr

/-- Model of `backend.QueryDataResponse`: the `Responses` map, with the
per-query payloads kept as strings (the manager never inspects them).
`backend.QueryDataResponse{}` is `⟨[]⟩`: zero result entries. -/
structure QueryDataResponse where
  Responses : List (String × String)
  deriving DecidableEq, Repr

/-- Model of `backend.CollectMetricsResult` (payload never inspected by the
manager). -/
structure CollectMetricsResult where
  Prometheus : List Nat
  deriving DecidableEq, Repr

/-- Model of `backend.CheckHealthResult` restricted to the fields the
manager writes. -/
structure CheckHealthResult where
  Status : Nat
  Message : String
  deriving DecidableEq, Repr

/-- Model of `PluginManagerV2.QueryData` (managerv2.go lines 201-226).
`invoke` stands for `plugin.QueryData(ctx, req)`; the instrumentation
wrapper only records metrics and passes the inner error through unchanged,
so it is elided. -/
def QueryData (m : ManagerState) (req : QueryDataRequest)
    (invoke : PluginV2 → Except GoError QueryDataResponse) :
    Except GoError QueryDataResponse :=
  match Plugin m req.PluginContext.PluginID with
  | none => .ok ⟨[]⟩
  | some plugin =>
    match invoke plugin with
    | .ok resp => .ok resp
    | .error e =>
      if errorsIs e .methodNotImplemented then .error e
      else if errorsIs e .pluginUnavailable then .error e
      else .error (.wrapped "failed to query data" e)

/-- Model of `PluginManagerV2.CollectMetrics` (managerv2.go lines 448-464):
plugin-not-registered is a hard error; invocation errors propagate
unchanged. -/
def CollectMetrics (m : ManagerState) (pluginID : String)
    (invoke : PluginV2 → Except GoError CollectMetricsResult) :
    Except GoError CollectMetricsResult :=
  match Plugin m pluginID with
  | none => .error .pluginNotRegistered
  | some p =>
    match invoke p with
    | .error e => .error e
    | .ok resp => .ok resp

/-- Model of `PluginManagerV2.CheckHealth` (managerv2.go lines 466-504).
`validate` stands for `PluginRequestValidator.Validate(dsURL, nil)`;
`invoke` stands for the instrumented `p.CheckHealth(ctx, req)` call.  Note
the unknown-error branch wraps the `ErrHealthCheckFailed` sentinel, not the
underlying error. -/
def CheckHealth (m : ManagerState) (pc : PluginContext)
    (validate : String → Option GoError)
    (invoke : PluginV2 → Except GoError CheckHealthResult) :
    Except GoError CheckHealthResult :=
  match validate (dsURLOf pc) with
  | some _ => .ok ⟨403, "Access denied"⟩
  | none =>
    match Plugin m pc.PluginID with
    | none => .error .pluginNotRegistered
    | some p =>
      match invoke p with
      | .ok resp => .ok resp
      | .error e =>
        if errorsIs e .methodNotImplemented then .error e
        else if errorsIs e .pluginUnavailable then .error e
        else .error (.wrapped "failed to check plugin health" .healthCheckFailed)

/-- Model of `backend.CallResourceResponse`: status code, optional header
map (nil vs present), body bytes. -/
structure CallResourceResponse where
  Status : Nat
  Headers : Option (List (String × List String))
  Body : List Nat
  deriving DecidableEq, Repr

/-- Outcome of one `stream.Recv()` call in the drain loop: a chunk, clean
end-of-stream (`io.EOF`), or a receive error. -/
inductive RecvResult where
  | ok (resp : CallResourceResponse)
  | eof
  | failure (e : GoError)
  deriving DecidableEq, Repr

/-- Operations performed on the `http.ResponseWriter`, recorded in order:
`w.Header().Add(k, v)`, `w.WriteHeader(status)`, `w.Write(body)`,
`flusher.Flush()`. -/
inductive WriterOp where
  | addHeader (k v : String)
  | writeHeader (status : Nat)
  | write (body : List Nat)
  | flush
  deriving DecidableEq, Repr

/-- Header-map membership test `_, exists := hs[k]`. -/
def headerHasKey (hs : List (String × List String)) (k : String) : Bool :=
  hs.any (fun kv => kv.1 = k)

/-- Content-Type defaulting on the first chunk's header map:
`resp.Headers["Content-Type"] = []string{"application/json"}` when the key
is absent. -/
def ensureContentType (hs : List (String × List String)) :
    List (String × List String) :=
  if headerHasKey hs "Content-Type" then hs
  else hs ++ [("Content-Type", ["application/json"])]

/-- Header-copy loop of `flushStream`: every key except `Set-Cookie` has all
its values added to the response writer.  (Go map iteration order is
unspecified; the association-list order stands in for one such order.) -/
def headerCopyOps (hs : List (String × List String)) : List WriterOp :=
  (hs.map (fun kv =>
    if kv.1 = "Set-Cookie" then []
    else kv.2.map (fun v => WriterOp.addHeader kv.1 v))).flatten

/-- Writer operations emitted while processing a first chunk that carries a
header map: defaulted header copy, then exactly one status write. -/
def firstChunkHeaderOps (status : Nat) (hs : List (String × List String)) :
    List WriterOp :=
  headerCopyOps (ensureContentType hs) ++ [WriterOp.writeHeader status]

/-- Writer operations emitted for every chunk's body: one write, then one
flush when the writer supports flushing. -/
def chunkBodyOps (canFlush : Bool) (resp : CallResourceResponse) : List WriterOp :=
  WriterOp.write resp.Body :: (if canFlush then [WriterOp.flush] else [])

/-- Result of the drain loop: the Go return value, the ordered writer log,
and whether the loop called `stream.Close()`.  `blocked` marks a receive
trace that ended without `io.EOF` or an error, on which the Go loop would
still be blocked in `Recv`. -/
inductive FlushOutcome where
  | done (err : Option GoError) (log : List WriterOp) (streamClosed : Bool)
  | blocked (log : List WriterOp)
  deriving DecidableEq, Repr

/-- Writer log of a drain-loop outcome. -/
def FlushOutcome.log : FlushOutcome → List WriterOp
  | .done _ l _ => l
  | .blocked l => l

/-- Error slot of a drain-loop outcome (`none` for `blocked`). -/
def FlushOutcome.err : FlushOutcome → Option GoError
  | .done e _ _ => e
  | .blocked _ => none

/-- Loop body of `flushStream` (managerv2.go lines 394-446), recursing over
the sequence of `Recv` outcomes with the `processedStreams` counter and the
accumulated writer log.  A write error from `w.Write` is logged and the loop
continues, so the writer is modelled as always accepting the write; the
late `stream.Close()` succeeds because the loop never closed the stream
before. -/
def flushLoop (canFlush : Bool) :
    List RecvResult → Nat → List WriterOp → FlushOutcome
  | [], _, log => .blocked log
  | .eof :: _, n, log =>
    if n = 0 then .done (some (.other "received empty resource response")) log false
    else .done none log false
  | .failure e :: _, n, log =>
    if n = 0 then
      .done (some (.wrapped "failed to receive response from resource call" e)) log false
    else .done none log true
  | .ok resp :: rest, n, log =>
    let log1 :=
      if n = 0 then
        match resp.Headers with
        | some hs => log ++ firstChunkHeaderOps resp.Status hs
        | none => log
      else log
    flushLoop canFlush rest (n + 1) (log1 ++ chunkBodyOps canFlush resp)

/-- Model of `flushStream` run against a receive trace, starting with
`processedStreams = 0` and an empty writer log. -/
def flushStream (canFlush : Bool) (events : List RecvResult) : FlushOutcome :=
  flushLoop canFlush events 0 []

/-- Writer log the spec's draining protocol prescribes for a chunk sequence:
header and status operations from the first chunk only (and only when it
carries headers), then per chunk one body write followed by a flush when the
writer supports it. -/
def drainLog (canFlush : Bool) : List CallResourceResponse → List WriterOp
  | [] => []
  | c :: rest =>
    (match c.Headers with
     | some hs => firstChunkHeaderOps c.Status hs
     | none => []) ++
      chunkBodyOps canFlush c ++ (rest.map (chunkBodyOps canFlush)).flatten

/-- Count of `WriteHeader` calls in a writer log. -/
def countWriteHeader (log : List WriterOp) : Nat :=
  log.countP (fun op =>
    match op with
    | .writeHeader _ => true
    | _ => false)

/-- Test whether a writer log ever adds a `Set-Cookie` header. -/
def logAddsSetCookie (log : List WriterOp) : Bool :=
  log.any (fun op =>
    match op with
    | .addHeader k _ => k = "Set-Cookie"
    | _ => false)

/-- Observation delivered to the supervision loop (managerv2.go lines
710-738) at one `select` iteration: either the governing context's `Done`
channel fired (carrying `ctx.Err()`), or the one-second ticker fired, in
which case the loop reads the entity's decommission flag, its `Exited`
status, and — when it restarts — the outcome of `Start`. -/
inductive SupervisorEvent where
  | ctxDone (e : Option GoError)
  | tick (decommissioned exited : Bool) (startErr : Option GoError)
  deriving DecidableEq, Repr

/-- Result of running the supervision loop over a finite observation trace:
`returned err starts` when the loop returned (with the number of `Start`
invocations it made), `running starts` when the trace was exhausted with the
loop still polling. -/
inductive LoopRes where
  | returned (err : Option GoError) (starts : Nat)
  | running (starts : Nat)
  deriving DecidableEq, Repr

/-- Model of `restartKilledProcess` (managerv2.go lines 710-738) over an
observation trace, counting `Start` invocations.  On `ctxDone` the loop
returns the context error unless it is plain cancellation; on a tick it
terminates when decommissioned, skips when the process has not exited, and
otherwise invokes `Start` and continues no matter whether `Start` failed. -/
def restartLoop : List SupervisorEvent → Nat → LoopRes
  | [], starts => .running starts
  | .ctxDone e :: _, starts =>
    match e with
    | some err =>
      if errorsIs err .ctxCanceled then .returned none starts
      else .returned (some err) starts
    | none => .returned none starts
  | .tick dec exited _ :: rest, starts =>
    if dec then .returned none starts
    else if !exited then restartLoop rest starts
    else restartLoop rest (starts + 1)

/-! Helper lemmas shared by the claim theorems. -/

/-- Looking up a key just inserted returns the inserted value. -/
theorem mapLookup_insert_self (l : PluginMap) (k : String) (v : PluginV2) :
    mapLookup (mapInsert l k v) k = some v := by
  induction l with
  | nil => simp [mapInsert, mapLookup]
  | cons hd tl ih =>
    obtain ⟨k', v'⟩ := hd
    by_cases h : k' = k
    · simp [mapInsert, h, mapLookup]
    · simp [mapInsert, h, mapLookup, ih]

/-- A map entry that is present but decommissioned makes `Plugin` return
nil. -/
theorem plugin_none_of_decommissioned (m : ManagerState) (id : String)
    (p : PluginV2) (hlk : mapLookup m.plugins id = some p)
    (hdec : p.decommissioned = true) : Plugin m id = none := by
  simp [Plugin, hlk, PluginV2.IsDecommissioned, hdec]

/-! Claim theorems. -/

/-- C3: `Register` fails with the already-registered error whenever the id
is already a key of the registry map — decommissioned or not — and leaves
the registry unchanged; otherwise it inserts the entity and succeeds.
Consequently a second registration of the same id with no intervening
unregister fails and leaves the state produced by the first registration
intact. -/
theorem register_uniqueness_c3 (m : ManagerState) (p q : PluginV2) :
    ((mapLookup m.plugins p.ID).isSome = true →
      Register m p =
        (m, some (.other ("plugin " ++ p.ID ++ " already registered")))) ∧
    (mapLookup m.plugins p.ID = none →
      Register m p = ({ m with plugins := mapInsert m.plugins p.ID p }, none)) ∧
    (q.ID = p.ID → (Register m p).2 = none →
      Register (Register m p).1 q =
        ((Register m p).1,
          some (.other ("plugin " ++ q.ID ++ " already registered")))) := by
  refine ⟨?_, ?_, ?_⟩
  · intro h
    simp [Register, h]
  · intro h
    simp [Register, h]
  · intro hq h2
    have hnone : mapLookup m.plugins p.ID = none := by
      cases hlk : mapLookup m.plugins p.ID with
      | none => rfl
      | some r =>
        exfalso
        have : Register m p =
            (m, some (.other ("plugin " ++ p.ID ++ " already registered"))) := by
          simp [Register, hlk]
        rw [this] at h2
        simp at h2
    have h1 : Register m p = ({ m with plugins := mapInsert m.plugins p.ID p }, none) := by
      simp [Register, hnone]
    rw [h1]
    have hlk2 : mapLookup (mapInsert m.plugins p.ID p) q.ID = some p := by
      rw [hq]
      exact mapLookup_insert_self m.plugins p.ID p
    simp [Register, hlk2]

/-- Witness for C3: in a registry holding a decommissioned entity under id
"acme", registering a fresh entity with the same id fails with the
already-registered error and leaves the registry unchanged; and after a
successful registration into an empty registry, a second registration of
the same id fails. -/
theorem register_uniqueness_c3_witness :
    Register ⟨[("acme", ⟨"acme", PluginClass.external, ⟨true, ["plugins"]⟩, true⟩)]⟩
        ⟨"acme", PluginClass.external, ⟨true, ["plugins"]⟩, false⟩ =
      (⟨[("acme", ⟨"acme", PluginClass.external, ⟨true, ["plugins"]⟩, true⟩)]⟩,
        some (.other ("plugin " ++ "acme" ++ " already registered"))) ∧
    Register (Register ⟨[]⟩ ⟨"acme", PluginClass.external, ⟨true, ["plugins"]⟩, false⟩).1
        ⟨"acme", PluginClass.core, ⟨true, ["plugins"]⟩, false⟩ =
      ((Register ⟨[]⟩ ⟨"acme", PluginClass.external, ⟨true, ["plugins"]⟩, false⟩).1,
        some (.other ("plugin " ++ "acme" ++ " already registered"))) :=
  ⟨(register_uniqueness_c3
      ⟨[("acme", ⟨"acme", PluginClass.external, ⟨true, ["plugins"]⟩, true⟩)]⟩
      ⟨"acme", PluginClass.external, ⟨true, ["plugins"]⟩, false⟩
      ⟨"acme", PluginClass.core, ⟨true, ["plugins"]⟩, false⟩).1 (by decide),
    (register_uniqueness_c3 ⟨[]⟩
      ⟨"acme", PluginClass.external, ⟨true, ["plugins"]⟩, false⟩
      ⟨"acme", PluginClass.core, ⟨true, ["plugins"]⟩, false⟩).2.2 (by decide) (by decide)⟩

/-- C4: `Plugin(id)` returns nil exactly when the id is absent from the
registry map or the stored entity is decommissioned; in particular a
decommissioned entity still physically present in the map is reported
absent. -/
theorem plugin_lookup_c4 (m : ManagerState) (id : String) :
    Plugin m id = none ↔
      mapLookup m.plugins id = none ∨
        ∃ p, mapLookup m.plugins id = some p ∧ p.decommissioned = true := by
  unfold Plugin
  cases h : mapLookup m.plugins id with
  | none => simp
  | some p =>
    cases hd : p.decommissioned with
    | false => simp [PluginV2.IsDecommissioned, hd]
    | true => simp [PluginV2.IsDecommissioned, hd]

/-- Witness for C4: a registry whose single map entry is decommissioned
reports the id as absent through `Plugin`, while the raw map still holds the
entry. -/
theorem plugin_lookup_c4_witness :
    Plugin ⟨[("acme", ⟨"acme", PluginClass.external, ⟨true, ["plugins"]⟩, true⟩)]⟩
        "acme" = none :=
  (plugin_lookup_c4
      ⟨[("acme", ⟨"acme", PluginClass.external, ⟨true, ["plugins"]⟩, true⟩)]⟩
      "acme").mpr
    (Or.inr ⟨⟨"acme", PluginClass.external, ⟨true, ["plugins"]⟩, true⟩, by decide, rfl⟩)

/-- C9: a decommissioned entity still present in the registry map is treated
by the dispatch operations exactly like an absent plugin: `QueryData`
returns the empty successful response with nil error, and `CollectMetrics`
and `CheckHealth` (once validation passes) return the plugin-not-registered
error. -/
theorem dispatch_decommissioned_c9 (m : ManagerState) (id : String) (p : PluginV2)
    (hlk : mapLookup m.plugins id = some p) (hdec : p.decommissioned = true)
    (req : QueryDataRequest) (hreq : req.PluginContext.PluginID = id)
    (pc : PluginContext) (hpc : pc.PluginID = id)
    (validate : String → Option GoError) (hv : validate (dsURLOf pc) = none)
    (invQ : PluginV2 → Except GoError QueryDataResponse)
    (invM : PluginV2 → Except GoError CollectMetricsResult)
    (invH : PluginV2 → Except GoError CheckHealthResult) :
    QueryData m req invQ = .ok ⟨[]⟩ ∧
    CollectMetrics m id invM = .error .pluginNotRegistered ∧
    CheckHealth m pc validate invH = .error .pluginNotRegistered := by
  have hnone : Plugin m id = none := plugin_none_of_decommissioned m id p hlk hdec
  refine ⟨?_, ?_, ?_⟩
  · simp [QueryData, hreq, hnone]
  · simp [CollectMetrics, hnone]
  · simp [CheckHealth, hv, hpc, hnone]

/-- Witness for C9: concrete registry with a decommissioned entity, an
always-allowing validator, and invocations that would succeed if reached —
all three dispatch operations behave as if the plugin were absent. -/
theorem dispatch_decommissioned_c9_witness :
    QueryData ⟨[("acme", ⟨"acme", PluginClass.external, ⟨true, ["plugins"]⟩, true⟩)]⟩
        ⟨⟨"acme", none⟩⟩ (fun _ => .ok ⟨[("q", "r")]⟩) = .ok ⟨[]⟩ ∧
    CollectMetrics ⟨[("acme", ⟨"acme", PluginClass.external, ⟨true, ["plugins"]⟩, true⟩)]⟩
        "acme" (fun _ => .ok ⟨[1]⟩) = .error .pluginNotRegistered ∧
    CheckHealth ⟨[("acme", ⟨"acme", PluginClass.external, ⟨true, ["plugins"]⟩, true⟩)]⟩
        ⟨"acme", none⟩ (fun _ => none) (fun _ => .ok ⟨200, "ok"⟩) =
      .error .pluginNotRegistered :=
  dispatch_decommissioned_c9
    ⟨[("acme", ⟨"acme", PluginClass.external, ⟨true, ["plugins"]⟩, true⟩)]⟩
    "acme" ⟨"acme", PluginClass.external, ⟨true, ["plugins"]⟩, true⟩
    (by decide) rfl ⟨⟨"acme", none⟩⟩ rfl ⟨"acme", none⟩ rfl
    (fun _ => none) rfl
    (fun _ => .ok ⟨[("q", "r")]⟩) (fun _ => .ok ⟨[1]⟩) (fun _ => .ok ⟨200, "ok"⟩)

/-- C5: `QueryData` for an id with no dispatch-eligible plugin returns the
empty successful response (zero result entries) with nil error, never an
error; for a registered plugin, the `MethodNotImplemented` and
`PluginUnavailable` sentinels pass through unwrapped while every other
invocation error is returned wrapped. -/
theorem querydata_dispatch_c5 :
    (∀ (m : ManagerState) (req : QueryDataRequest)
        (invoke : PluginV2 → Except GoError QueryDataResponse),
        Plugin m req.PluginContext.PluginID = none →
        QueryData m req invoke = .ok ⟨[]⟩) ∧
    (∀ (m : ManagerState) (req : QueryDataRequest)
        (invoke : PluginV2 → Except GoError QueryDataResponse)
        (p : PluginV2) (e : GoError),
        Plugin m req.PluginContext.PluginID = some p →
        invoke p = .error e →
        (errorsIs e .methodNotImplemented || errorsIs e .pluginUnavailable) = true →
        QueryData m req invoke = .error e) ∧
    (∀ (m : ManagerState) (req : QueryDataRequest)
        (invoke : PluginV2 → Except GoError QueryDataResponse)
        (p : PluginV2) (e : GoError),
        Plugin m req.PluginContext.PluginID = some p →
        invoke p = .error e →
        errorsIs e .methodNotImplemented = false →
        errorsIs e .pluginUnavailable = false →
        QueryData m req invoke = .error (.wrapped "failed to query data" e)) := by
  refine ⟨?_, ?_, ?_⟩
  · intro m req invoke h
    simp [QueryData, h]
  · intro m req invoke p e h1 h2 h3
    cases hm : errorsIs e .methodNotImplemented with
    | true => simp [QueryData, h1, h2, hm]
    | false =>
      rw [hm] at h3
      simp at h3
      simp [QueryData, h1, h2, hm, h3]
  · intro m req invoke p e h1 h2 h3 h4
    simp [QueryData, h1, h2, h3, h4]

/-- Witness for C5: unknown id on an empty registry yields the empty
response; a registered plugin whose invocation fails with the
`PluginUnavailable` sentinel has it passed through; one failing with an
unrecognized error has it wrapped. -/
theorem querydata_dispatch_c5_witness :
    QueryData ⟨[]⟩ ⟨⟨"ghost", none⟩⟩ (fun _ => .ok ⟨[("q", "r")]⟩) = .ok ⟨[]⟩ ∧
    QueryData ⟨[("acme", ⟨"acme", PluginClass.external, ⟨true, ["plugins"]⟩, false⟩)]⟩
        ⟨⟨"acme", none⟩⟩ (fun _ => .error .pluginUnavailable) =
      .error .pluginUnavailable ∧
    QueryData ⟨[("acme", ⟨"acme", PluginClass.external, ⟨true, ["plugins"]⟩, false⟩)]⟩
        ⟨⟨"acme", none⟩⟩ (fun _ => .error (.other "boom")) =
      .error (.wrapped "failed to query data" (.other "boom")) :=
  ⟨querydata_dispatch_c5.1 ⟨[]⟩ ⟨⟨"ghost", none⟩⟩ (fun _ => .ok ⟨[("q", "r")]⟩)
      (by decide),
    querydata_dispatch_c5.2.1
      ⟨[("acme", ⟨"acme", PluginClass.external, ⟨true, ["plugins"]⟩, false⟩)]⟩
      ⟨⟨"acme", none⟩⟩ (fun _ => .error .pluginUnavailable)
      ⟨"acme", PluginClass.external, ⟨true, ["plugins"]⟩, false⟩ .pluginUnavailable
      (by decide) rfl (by decide),
    querydata_dispatch_c5.2.2
      ⟨[("acme", ⟨"acme", PluginClass.external, ⟨true, ["plugins"]⟩, false⟩)]⟩
      ⟨⟨"acme", none⟩⟩ (fun _ => .error (.other "boom"))
      ⟨"acme", PluginClass.external, ⟨true, ["plugins"]⟩, false⟩ (.other "boom")
      (by decide) rfl (by decide) (by decide)⟩

/-- C7: when the access validator rejects the target data-source URL,
`CheckHealth` returns a nil-error result with status 403 / "Access denied"
rather than an error; and for a registered plugin every invocation error
other than the `MethodNotImplemented` and `PluginUnavailable` sentinels is
collapsed into the wrapped `HealthCheckFailed` sentinel, a fixed value that
discards the underlying cause. -/
theorem checkhealth_c7 :
    (∀ (m : ManagerState) (pc : PluginContext)
        (validate : String → Option GoError)
        (invoke : PluginV2 → Except GoError CheckHealthResult),
        (validate (dsURLOf pc)).isSome = true →
        CheckHealth m pc validate invoke = .ok ⟨403, "Access denied"⟩) ∧
    (∀ (m : ManagerState) (pc : PluginContext)
        (validate : String → Option GoError)
        (invoke : PluginV2 → Except GoError CheckHealthResult)
        (p : PluginV2) (e : GoError),
        validate (dsURLOf pc) = none →
        Plugin m pc.PluginID = some p →
        invoke p = .error e →
        errorsIs e .methodNotImplemented = false →
        errorsIs e .pluginUnavailable = false →
        CheckHealth m pc validate invoke =
          .error (.wrapped "failed to check plugin health" .healthCheckFailed)) := by
  constructor
  · intro m pc validate invoke hv
    cases h : validate (dsURLOf pc) with
    | none => rw [h] at hv; simp at hv
    | some e => simp [CheckHealth, h]
  · intro m pc validate invoke p e hv h1 h2 h3 h4
    simp [CheckHealth, hv, h1, h2, h3, h4]

/-- Witness for C7: a denying validator produces the 403 result even with a
healthy registered plugin; an allowing validator with an invocation failing
on an unrecognized error produces the collapsed `HealthCheckFailed`
sentinel, identical for two different underlying causes. -/
theorem checkhealth_c7_witness :
    CheckHealth ⟨[("acme", ⟨"acme", PluginClass.external, ⟨true, ["plugins"]⟩, false⟩)]⟩
        ⟨"acme", some ⟨"http://ds.example"⟩⟩ (fun _ => some (.other "denied"))
        (fun _ => .ok ⟨200, "ok"⟩) = .ok ⟨403, "Access denied"⟩ ∧
    CheckHealth ⟨[("acme", ⟨"acme", PluginClass.external, ⟨true, ["plugins"]⟩, false⟩)]⟩
        ⟨"acme", none⟩ (fun _ => none) (fun _ => .error (.other "boom")) =
      .error (.wrapped "failed to check plugin health" .healthCheckFailed) ∧
    CheckHealth ⟨[("acme", ⟨"acme", PluginClass.external, ⟨true, ["plugins"]⟩, false⟩)]⟩
        ⟨"acme", none⟩ (fun _ => none) (fun _ => .error (.other "different cause")) =
      .error (.wrapped "failed to check plugin health" .healthCheckFailed) :=
  ⟨checkhealth_c7.1
      ⟨[("acme", ⟨"acme", PluginClass.external, ⟨true, ["plugins"]⟩, false⟩)]⟩
      ⟨"acme", some ⟨"http://ds.example"⟩⟩ (fun _ => some (.other "denied"))
      (fun _ => .ok ⟨200, "ok"⟩) (by decide),
    checkhealth_c7.2
      ⟨[("acme", ⟨"acme", PluginClass.external, ⟨true, ["plugins"]⟩, false⟩)]⟩
      ⟨"acme", none⟩ (fun _ => none) (fun _ => .error (.other "boom"))
      ⟨"acme", PluginClass.external, ⟨true, ["plugins"]⟩, false⟩ (.other "boom")
      rfl (by decide) rfl (by decide) (by decide),
    checkhealth_c7.2
      ⟨[("acme", ⟨"acme", PluginClass.external, ⟨true, ["plugins"]⟩, false⟩)]⟩
      ⟨"acme", none⟩ (fun _ => none) (fun _ => .error (.other "different cause"))
      ⟨"acme", PluginClass.external, ⟨true, ["plugins"]⟩, false⟩ (.other "different cause")
      rfl (by decide) rfl (by decide) (by decide)⟩

/-- C10: `CheckHealth` runs access validation before the registry lookup, so
when the validator rejects the URL the 403 Access-denied result is returned
even for an unregistered plugin id, and the plugin-not-registered error is
never returned on a validation failure. -/
theorem checkhealth_validate_first_c10 (m : ManagerState) (pc : PluginContext)
    (validate : String → Option GoError)
    (invoke : PluginV2 → Except GoError CheckHealthResult)
    (hv : (validate (dsURLOf pc)).isSome = true)
    (habs : Plugin m pc.PluginID = none) :
    CheckHealth m pc validate invoke = .ok ⟨403, "Access denied"⟩ ∧
    CheckHealth m pc validate invoke ≠ .error .pluginNotRegistered := by
  have h403 : CheckHealth m pc validate invoke = .ok ⟨403, "Access denied"⟩ := by
    cases h : validate (dsURLOf pc) with
    | none => rw [h] at hv; simp at hv
    | some e => simp [CheckHealth, h]
  refine ⟨h403, ?_⟩
  rw [h403]
  simp

/-- Witness for C10: empty registry and a denying validator — the result is
the 403 Access-denied success, not the plugin-not-registered error. -/
theorem checkhealth_validate_first_c10_witness :
    CheckHealth ⟨[]⟩ ⟨"ghost", some ⟨"http://ds.example"⟩⟩
        (fun _ => some (.other "denied")) (fun _ => .ok ⟨200, "ok"⟩) =
      .ok ⟨403, "Access denied"⟩ :=
  (checkhealth_validate_first_c10 ⟨[]⟩ ⟨"ghost", some ⟨"http://ds.example"⟩⟩
      (fun _ => some (.other "denied")) (fun _ => .ok ⟨200, "ok"⟩)
      (by decide) (by decide)).1

/-- C6: behaviour of the supervision loop — everything after the tick that
observes the decommission flag is irrelevant (the loop has terminated, so in
particular no later `Start` happens); a decommission tick terminates with a
nil error and no `Start` at that tick; an exited-process tick invokes
`Start` exactly once and continues regardless of the `Start` outcome; a
tick with the process still alive continues without `Start`; context
cancellation terminates the loop, returning nil for plain cancellation and
the context error otherwise. -/
theorem restart_loop_c6 :
    (∀ (pre post : List SupervisorEvent) (ex : Bool) (se : Option GoError) (n : Nat),
        restartLoop (pre ++ SupervisorEvent.tick true ex se :: post) n =
          restartLoop (pre ++ [SupervisorEvent.tick true ex se]) n) ∧
    (∀ (rest : List SupervisorEvent) (ex : Bool) (se : Option GoError) (n : Nat),
        restartLoop (SupervisorEvent.tick true ex se :: rest) n =
          .returned none n) ∧
    (∀ (rest : List SupervisorEvent) (se : Option GoError) (n : Nat),
        restartLoop (SupervisorEvent.tick false true se :: rest) n =
          restartLoop rest (n + 1)) ∧
    (∀ (rest : List SupervisorEvent) (se : Option GoError) (n : Nat),
        restartLoop (SupervisorEvent.tick false false se :: rest) n =
          restartLoop rest n) ∧
    (∀ (rest : List SupervisorEvent) (n : Nat),
        restartLoop (SupervisorEvent.ctxDone (some .ctxCanceled) :: rest) n =
          .returned none n) ∧
    (∀ (rest : List SupervisorEvent) (n : Nat),
        restartLoop (SupervisorEvent.ctxDone (some .ctxDeadlineExceeded) :: rest) n =
          .returned (some .ctxDeadlineExceeded) n) := by
  refine ⟨?_, ?_, ?_, ?_, ?_, ?_⟩
  · intro pre post ex se n
    induction pre generalizing n with
    | nil => simp [restartLoop]
    | cons hd tl ih =>
      cases hd with
      | ctxDone e => simp [restartLoop]
      | tick d x s =>
        cases d with
        | true => simp [restartLoop]
        | false =>
          cases x with
          | true => simp [restartLoop, ih]
          | false => simp [restartLoop, ih]
  · intro rest ex se n
    simp [restartLoop]
  · intro rest se n
    simp [restartLoop]
  · intro rest se n
    simp [restartLoop]
  · intro rest n
    simp [restartLoop, errorsIs]
  · intro rest n
    simp [restartLoop, errorsIs]

/-! Drain-loop helper lemmas. -/

/-- After the first chunk (`processedStreams ≥ 1`) the loop only appends the
per-chunk body operations for each further chunk. -/
theorem flushLoop_ok_append (canFlush : Bool) (chunks : List CallResourceResponse)
    (tail : List RecvResult) (n : Nat) (log : List WriterOp) :
    flushLoop canFlush (chunks.map RecvResult.ok ++ tail) (n + 1) log =
      flushLoop canFlush tail (n + 1 + chunks.length)
        (log ++ (chunks.map (chunkBodyOps canFlush)).flatten) := by
  induction chunks generalizing n log with
  | nil => simp
  | cons c cs ih =>
    have hstep : flushLoop canFlush ((c :: cs).map RecvResult.ok ++ tail) (n + 1) log =
        flushLoop canFlush (cs.map RecvResult.ok ++ tail) (n + 1 + 1)
          (log ++ chunkBodyOps canFlush c) := rfl
    rw [hstep, ih (n + 1) (log ++ chunkBodyOps canFlush c)]
    have hn : n + 1 + 1 + cs.length = n + 1 + (c :: cs).length := by
      simp only [List.length_cons]
      omega
    rw [hn]
    simp [List.append_assoc]

/-- Unfolding the first loop iteration on a chunk: header operations happen
only here and only when the chunk carries a header map. -/
theorem flushStream_first_ok (canFlush : Bool) (c : CallResourceResponse)
    (rest : List RecvResult) :
    flushStream canFlush (RecvResult.ok c :: rest) =
      flushLoop canFlush rest 1
        ((match c.Headers with
          | some hs => firstChunkHeaderOps c.Status hs
          | none => []) ++ chunkBodyOps canFlush c) := by
  cases h : c.Headers with
  | none => simp [flushStream, flushLoop, h]
  | some hs => simp [flushStream, flushLoop, h]

/-- Every operation the header-copy loop emits is an `addHeader` with a key
different from `Set-Cookie`. -/
theorem mem_headerCopyOps (hs : List (String × List String)) (op : WriterOp)
    (hop : op ∈ headerCopyOps hs) :
    ∃ k v, op = WriterOp.addHeader k v ∧ k ≠ "Set-Cookie" := by
  simp only [headerCopyOps, List.mem_flatten, List.mem_map] at hop
  obtain ⟨l, ⟨kv, hkv, hl⟩, hmem⟩ := hop
  by_cases h : kv.1 = "Set-Cookie"
  · rw [if_pos h] at hl
    rw [← hl] at hmem
    simp at hmem
  · rw [if_neg h] at hl
    rw [← hl] at hmem
    simp only [List.mem_map] at hmem
    obtain ⟨v, _, rfl⟩ := hmem
    exact ⟨kv.1, v, rfl, h⟩

/-- The header-copy loop distributes over header-map concatenation. -/
theorem headerCopyOps_append (a b : List (String × List String)) :
    headerCopyOps (a ++ b) = headerCopyOps a ++ headerCopyOps b := by
  simp [headerCopyOps]

/-- The header-copy loop never writes a status. -/
theorem countWriteHeader_headerCopyOps (hs : List (String × List String)) :
    countWriteHeader (headerCopyOps hs) = 0 := by
  rw [countWriteHeader, List.countP_eq_zero]
  intro op hop
  obtain ⟨k, v, rfl, _⟩ := mem_headerCopyOps hs op hop
  simp

/-- Body operations contain neither header additions nor status writes. -/
theorem mem_chunkBodyOps (canFlush : Bool) (c : CallResourceResponse) (op : WriterOp)
    (hop : op ∈ chunkBodyOps canFlush c) :
    op = WriterOp.write c.Body ∨ op = WriterOp.flush := by
  cases canFlush with
  | true => simpa [chunkBodyOps] using hop
  | false => exact Or.inl (by simpa [chunkBodyOps] using hop)

/-- Body operations of any chunk sequence never write a status. -/
theorem countWriteHeader_bodies (canFlush : Bool) (cs : List CallResourceResponse) :
    countWriteHeader ((cs.map (chunkBodyOps canFlush)).flatten) = 0 := by
  rw [countWriteHeader, List.countP_eq_zero]
  intro op hop
  simp only [List.mem_flatten, List.mem_map] at hop
  obtain ⟨l, ⟨c, _, hl⟩, hmem⟩ := hop
  rw [← hl] at hmem
  rcases mem_chunkBodyOps canFlush c op hmem with h | h <;> simp [h]

/-- The prescribed drain log for a nonempty chunk sequence, unfolded. -/
theorem drainLog_cons (canFlush : Bool) (c : CallResourceResponse)
    (cs : List CallResourceResponse) :
    drainLog canFlush (c :: cs) =
      (match c.Headers with
       | some hs => firstChunkHeaderOps c.Status hs
       | none => []) ++
        (chunkBodyOps canFlush c ++ (cs.map (chunkBodyOps canFlush)).flatten) := by
  simp [drainLog]

/-- Drain log when the first chunk carries no header map. -/
theorem drainLog_cons_none (canFlush : Bool) (c : CallResourceResponse)
    (cs : List CallResourceResponse) (h : c.Headers = none) :
    drainLog canFlush (c :: cs) =
      chunkBodyOps canFlush c ++ (cs.map (chunkBodyOps canFlush)).flatten := by
  simp [drainLog, h]

/-- Drain log when the first chunk carries a header map. -/
theorem drainLog_cons_some (canFlush : Bool) (c : CallResourceResponse)
    (cs : List CallResourceResponse) (hs : List (String × List String))
    (h : c.Headers = some hs) :
    drainLog canFlush (c :: cs) =
      firstChunkHeaderOps c.Status hs ++
        (chunkBodyOps canFlush c ++ (cs.map (chunkBodyOps canFlush)).flatten) := by
  simp [drainLog, h]

/-- C2: draining a stream of chunks terminated by clean end-of-stream writes
exactly the prescribed log — header copy and a single status write from the
first chunk only (and only when it carries headers), then for every chunk
one body write followed by a flush when the writer supports flushing; the
status is written exactly once when the first chunk carries headers and
never otherwise; no `Set-Cookie` header from the plugin is ever added to
the client-facing response; and a missing `Content-Type` on the first
chunk's headers is defaulted to `application/json`. -/
theorem flushstream_response_c2 (canFlush : Bool) (c : CallResourceResponse)
    (cs : List CallResourceResponse) :
    flushStream canFlush ((c :: cs).map RecvResult.ok ++ [RecvResult.eof]) =
      .done none (drainLog canFlush (c :: cs)) false ∧
    countWriteHeader
        ((flushStream canFlush ((c :: cs).map RecvResult.ok ++ [RecvResult.eof])).log) =
      (if c.Headers.isSome then 1 else 0) ∧
    logAddsSetCookie
        ((flushStream canFlush ((c :: cs).map RecvResult.ok ++ [RecvResult.eof])).log) =
      false ∧
    (∀ hs, c.Headers = some hs → headerHasKey hs "Content-Type" = false →
      WriterOp.addHeader "Content-Type" "application/json" ∈
        (flushStream canFlush ((c :: cs).map RecvResult.ok ++ [RecvResult.eof])).log) := by
  have hmain : flushStream canFlush ((c :: cs).map RecvResult.ok ++ [RecvResult.eof]) =
      .done none (drainLog canFlush (c :: cs)) false := by
    rw [List.map_cons, List.cons_append, flushStream_first_ok,
      flushLoop_ok_append canFlush cs [RecvResult.eof] 0]
    rw [drainLog_cons]
    simp [flushLoop, List.append_assoc]
  have hbodyzero : countWriteHeader (chunkBodyOps canFlush c) = 0 := by
    rw [countWriteHeader, List.countP_eq_zero]
    intro op hop
    rcases mem_chunkBodyOps canFlush c op hop with hh | hh <;> simp [hh]
  have hcount : countWriteHeader (drainLog canFlush (c :: cs)) =
      (if c.Headers.isSome then 1 else 0) := by
    cases h : c.Headers with
    | none =>
      rw [drainLog_cons_none canFlush c cs h]
      rw [countWriteHeader] at *
      rw [List.countP_append, hbodyzero]
      have h3 := countWriteHeader_bodies canFlush cs
      rw [countWriteHeader] at h3
      rw [h3]
      simp
    | some hs =>
      rw [drainLog_cons_some canFlush c cs hs h]
      rw [countWriteHeader] at *
      simp only [List.countP_append]
      have h1 := countWriteHeader_headerCopyOps (ensureContentType hs)
      rw [countWriteHeader] at h1
      have h3 := countWriteHeader_bodies canFlush cs
      rw [countWriteHeader] at h3
      simp only [firstChunkHeaderOps, List.countP_append, h1, hbodyzero, h3]
      simp [List.countP_cons]
  have hcookie : logAddsSetCookie (drainLog canFlush (c :: cs)) = false := by
    rw [logAddsSetCookie, List.any_eq_false]
    intro op hop
    rw [drainLog_cons] at hop
    rcases List.mem_append.mp hop with hfirst | hbody
    · cases h : c.Headers with
      | none => rw [h] at hfirst; simp at hfirst
      | some hs =>
        rw [h] at hfirst
        simp only [firstChunkHeaderOps] at hfirst
        rcases List.mem_append.mp hfirst with hcopy | hstat
        · obtain ⟨k, v, rfl, hk⟩ := mem_headerCopyOps _ op hcopy
          simp [hk]
        · simp only [List.mem_singleton] at hstat
          simp [hstat]
    · rcases List.mem_append.mp hbody with hc | hrest
      · rcases mem_chunkBodyOps canFlush c op hc with hh | hh <;> simp [hh]
      · simp only [List.mem_flatten, List.mem_map] at hrest
        obtain ⟨l, ⟨d, _, hl⟩, hmem⟩ := hrest
        rw [← hl] at hmem
        rcases mem_chunkBodyOps canFlush d op hmem with hh | hh <;> simp [hh]
  refine ⟨hmain, ?_, ?_, ?_⟩
  · rw [hmain]
    exact hcount
  · rw [hmain]
    exact hcookie
  · intro hs hhs hct
    rw [hmain]
    show WriterOp.addHeader "Content-Type" "application/json" ∈ drainLog canFlush (c :: cs)
    rw [drainLog_cons_some canFlush c cs hs hhs]
    apply List.mem_append_left
    simp only [firstChunkHeaderOps]
    apply List.mem_append_left
    rw [ensureContentType, if_neg (by simp [hct])]
    rw [headerCopyOps_append]
    apply List.mem_append_right
    simp [headerCopyOps]

/-- Witness for C2: a three-chunk stream with headers (including a
`Set-Cookie` and no `Content-Type`) on the first chunk only. -/
theorem flushstream_response_c2_witness :
    WriterOp.addHeader "Content-Type" "application/json" ∈
      (flushStream true
        ((⟨200, some [("Set-Cookie", ["a=b"]), ("X-Custom", ["v"])], [1]⟩ ::
            [⟨0, none, [2]⟩, ⟨0, some [("Ignored", ["w"])], [3]⟩]).map RecvResult.ok ++
          [RecvResult.eof])).log ∧
    logAddsSetCookie
        ((flushStream true
          ((⟨200, some [("Set-Cookie", ["a=b"]), ("X-Custom", ["v"])], [1]⟩ ::
              [⟨0, none, [2]⟩, ⟨0, some [("Ignored", ["w"])], [3]⟩]).map RecvResult.ok ++
            [RecvResult.eof])).log) = false :=
  ⟨(flushstream_response_c2 true
      ⟨200, some [("Set-Cookie", ["a=b"]), ("X-Custom", ["v"])], [1]⟩
      [⟨0, none, [2]⟩, ⟨0, some [("Ignored", ["w"])], [3]⟩]).2.2.2
      [("Set-Cookie", ["a=b"]), ("X-Custom", ["v"])] rfl (by decide),
    (flushstream_response_c2 true
      ⟨200, some [("Set-Cookie", ["a=b"]), ("X-Custom", ["v"])], [1]⟩
      [⟨0, none, [2]⟩, ⟨0, some [("Ignored", ["w"])], [3]⟩]).2.2.1⟩

/-- C8: the drain loop's failure policy — clean end-of-stream with zero
chunks processed returns the "received empty resource response" error; a
receive error before any chunk is processed is returned wrapped as a hard
error; a receive error after at least one chunk is not propagated (nil
error) and the stream is closed instead. -/
theorem flushstream_failure_policy_c8 :
    (∀ (canFlush : Bool) (rest : List RecvResult),
        flushStream canFlush (RecvResult.eof :: rest) =
          .done (some (.other "received empty resource response")) [] false) ∧
    (∀ (canFlush : Bool) (e : GoError) (rest : List RecvResult),
        flushStream canFlush (RecvResult.failure e :: rest) =
          .done (some (.wrapped "failed to receive response from resource call" e))
            [] false) ∧
    (∀ (canFlush : Bool) (c : CallResourceResponse) (cs : List CallResourceResponse)
        (e : GoError) (rest : List RecvResult),
        flushStream canFlush ((c :: cs).map RecvResult.ok ++
            RecvResult.failure e :: rest) =
          .done none (drainLog canFlush (c :: cs)) true) := by
  refine ⟨?_, ?_, ?_⟩
  · intro canFlush rest
    simp [flushStream, flushLoop]
  · intro canFlush e rest
    simp [flushStream, flushLoop]
  · intro canFlush c cs e rest
    rw [List.map_cons, List.cons_append, flushStream_first_ok,
      flushLoop_ok_append canFlush cs (RecvResult.failure e :: rest) 0]
    rw [drainLog_cons]
    simp [flushLoop, List.append_assoc]

/-- C1 (code-bug evidence): for a registered external plugin whose recorded
directory is the parent of the configured plugins root, `filepath.Rel`
yields exactly `".."`, so the directory is outside the root and the spec's
containment requirement marks it unsafe; but the code's check only tests
for the prefix `"../"`, which `".."` lacks, so `Uninstall` does not fail
with the unsafe-path error: it decommissions and unregisters the plugin and
hands the outside directory to the installer for on-disk deletion. -/
theorem uninstall_parent_dir_c1 :
    specUnsafeUninstallPath ⟨true, ["var", "lib", "grafana", "plugins"]⟩
        ⟨true, ["var", "lib", "grafana"]⟩ = true ∧
    unsafeUninstallPath ⟨true, ["var", "lib", "grafana", "plugins"]⟩
        ⟨true, ["var", "lib", "grafana"]⟩ = false ∧
    Uninstall
        ⟨[("acme",
          ⟨"acme", PluginClass.external, ⟨true, ["var", "lib", "grafana"]⟩, false⟩)]⟩
        "acme" ⟨true, ["var", "lib", "grafana", "plugins"]⟩
        (fun _ => none) (fun _ => none) =
      (⟨[]⟩, none, [⟨true, ["var", "lib", "grafana"]⟩]) :=
  ⟨by decide, by decide, by decide⟩

end Grafana
